import Mathlib

/-!
Shallow embedding of `pronotepy/ent/generic_func.py`: the ENT
authentication flows (generic auto-detect, CAS, Educonnect, WAYF,
Open-ENT-NG, Oze, HubEduConnect) and their shared helpers
(`AuthSession`, `_sso_redirect`, `_educonnect`, `post_form`).

HTML documents are modelled as trees of elements with attributes
(`Node`/`NodeList`); BeautifulSoup's `find`/`find_all` become pre-order
searches.  The HTTP layer is modelled by a deterministic environment: a
list of `Response`s, the `n`-th of which answers the `n`-th request
issued during the flow.  A flow is a state transformer `M α` over a
session state (environment, trace of issued requests, cookie jar),
returning `Except PyError α`; Python exceptions become `PyError`
values (`entLoginError` is the library's typed `ENTLoginError`; the
others are untyped runtime errors: `requests` raising on a blank/None
URL, `raise_for_status`, failed `assert`, `KeyError` on a subscript,
`AttributeError` on `None`, `TypeError` on subscripting `None`).
-/

namespace Pronotepy

/-! ## HTML documents -/

mutual

inductive Node where
  | elem (tag : String) (attrs : List (String × String)) (children : NodeList)

inductive NodeList where
  | nil
  | cons (n : Node) (ns : NodeList)

end

def NodeList.ofList : List Node → NodeList
  | [] => .nil
  | n :: ns => .cons n (NodeList.ofList ns)

def Node.tagOf : Node → String
  | .elem t _ _ => t

def Node.attrsOf : Node → List (String × String)
  | .elem _ a _ => a

def Node.childrenOf : Node → NodeList
  | .elem _ _ cs => cs

/-- `tag.get(attr)` / `tag[attr]` lookup on an element. -/
def Node.attr (n : Node) (k : String) : Option String :=
  n.attrsOf.lookup k

mutual

/-- `soup.find`: first node matching the predicate, in pre-order. -/
def findNode (p : String → List (String × String) → Bool) : Node → Option Node
  | .elem t a cs => if p t a then some (.elem t a cs) else findNL p cs

def findNL (p : String → List (String × String) → Bool) : NodeList → Option Node
  | .nil => none
  | .cons n ns =>
    match findNode p n with
    | some r => some r
    | none => findNL p ns

end

mutual

/-- `soup.find_all`: all matching nodes, in pre-order. -/
def allNode (p : String → List (String × String) → Bool) : Node → List Node
  | .elem t a cs => (if p t a then [Node.elem t a cs] else []) ++ allNL p cs

def allNL (p : String → List (String × String) → Bool) : NodeList → List Node
  | .nil => []
  | .cons n ns => allNode p n ++ allNL p ns

end

/-- `find(tag, {key: value})` predicate: tag equal and attribute present
with the given value. -/
def byTagAttr (tag k v : String) : String → List (String × String) → Bool :=
  fun t a => t == tag && a.lookup k == some v

/-- `find(None, {key: value})` predicate: any tag, attribute equal. -/
def byAttr (k v : String) : String → List (String × String) → Bool :=
  fun _ a => a.lookup k == some v

def byTag (tag : String) : String → List (String × String) → Bool :=
  fun t _ => t == tag

/-- `find_all(["input", "button"])` predicate. -/
def byInputButton : String → List (String × String) → Bool :=
  fun t _ => t == "input" || t == "button"

/-- `form.findAll("input")`: input descendants of a node (the node
itself is a `form`, so it never matches). -/
def descendantInputs (n : Node) : List Node :=
  allNL (byTag "input") n.childrenOf

/-! ## Strings and URLs -/

/-- Split a character list at the first occurrence of `sub`:
`(before, after)`, or `none` when `sub` does not occur. -/
def splitSub (sub : List Char) : List Char → Option (List Char × List Char)
  | [] => if sub.isEmpty then some ([], []) else none
  | c :: cs =>
    if sub.isPrefixOf (c :: cs) then some ([], (c :: cs).drop sub.length)
    else
      match splitSub sub cs with
      | some (pre, post) => some (c :: pre, post)
      | none => none

/-- Python's `sub in s` substring test. -/
def strContains (s sub : String) : Bool :=
  (splitSub sub.toList s.toList).isSome

/-- `urlparse(url).netloc`: the part between `"://"` and the next `/`. -/
def netlocOf (url : String) : String :=
  match splitSub "://".toList url.toList with
  | none => ""
  | some (_, rest) => String.mk (rest.takeWhile (fun c => c ≠ '/'))

/-- Python's `s.startswith("/")`. -/
def startsSlash (s : String) : Bool :=
  match s.toList with
  | '/' :: _ => true
  | _ => false

/-- `urljoin(base, path)` for a root-relative `path` (starting with `/`). -/
def urljoinRoot (base path : String) : String :=
  match splitSub "://".toList base.toList with
  | none => path
  | some (pre, rest) =>
    String.mk pre ++ "://" ++ String.mk (rest.takeWhile (fun c => c ≠ '/')) ++ path

/-- `urlunparse(urlparse(url)._replace(netloc=n))`. -/
def replaceNetloc (url n : String) : String :=
  match splitSub "://".toList url.toList with
  | none => url
  | some (pre, rest) =>
    String.mk pre ++ "://" ++ n ++ String.mk (rest.dropWhile (fun c => c ≠ '/'))

/-- `urljoin(base, rel)` (the cases the source exercises: absolute `rel`,
root-relative `rel`, and last-segment replacement). -/
def urljoin (base rel : String) : String :=
  if (splitSub "://".toList rel.toList).isSome then rel
  else if startsSlash rel then urljoinRoot base rel
  else
    match splitSub "://".toList base.toList with
    | none => rel
    | some _ => String.mk ((base.toList.reverse.dropWhile (fun c => c ≠ '/')).reverse) ++ rel

/-! ## Payloads (Python dicts of form data) -/

/-- A form payload: insertion-ordered mapping from field names to values
(`none` models Python `None`). -/
abbrev Payload := List (String × Option String)

/-- Python dict assignment `d[k] = v`: overwrite in place or append. -/
def pSet (p : Payload) (k : String) (v : Option String) : Payload :=
  match p with
  | [] => [(k, v)]
  | (k', v') :: rest => if k' = k then (k, v) :: rest else (k', v') :: pSet rest k v

/-- Python string truthiness of an optional string: `None` and `""` are falsy. -/
def truthyS : Option String → Bool
  | none => false
  | some s => !(s == "")

/-! ## HTTP layer -/

def uaString : String :=
  "Mozilla/5.0 (X11; Ubuntu; Linux x86_64; rv:73.0) Gecko/20100101 Firefox/73.0"

/-- The module-level `HEADERS` constant. -/
def HEADERS : List (String × String) := [("User-Agent", uaString)]

inductive PyError where
  | entLoginError (msg : String)
  | missingSchema
  | httpError
  | assertionError
  | keyError
  | attributeError
  | typeError
deriving Repr, DecidableEq

structure Request where
  method : String
  url : String
  headers : List (String × String)
  body : Payload
  params : List (String × String)
deriving Repr, DecidableEq

structure Response where
  status : Nat
  url : String
  html : NodeList
  text : String
  setCookies : List (String × String)
  jsonProfil : String × String
  jsonApps : List (String × String)
  jsonAutoId : String
  jsonProjet : String

instance : Inhabited Response :=
  ⟨⟨200, "", .nil, "", [], ("", ""), [], "", ""⟩⟩

/-- `requests.Response.ok` is false exactly when `raise_for_status`
would raise, i.e. for a 4xx/5xx status. -/
def statusBad (s : Nat) : Bool :=
  400 ≤ s && s < 600

/-- Truthiness of an `Optional[Response]`: `None` is falsy, and so is a
response with a 4xx/5xx status (`Response.__bool__` returns `self.ok`). -/
def optTruthy : Option Response → Bool
  | none => false
  | some r => !statusBad r.status

/-- Session state: the environment (`world`: the `n`-th entry answers
the `n`-th request), the trace of issued requests, and the cookie jar. -/
structure St where
  world : List Response
  trace : List Request
  cookies : List (String × String)

def St.init (w : List Response) : St := ⟨w, [], []⟩

/-- Cookie-jar update from one response: overwrite by name or append. -/
def setAssoc (l : List (String × String)) (k v : String) : List (String × String) :=
  match l with
  | [] => [(k, v)]
  | (k', v') :: rest => if k' = k then (k, v) :: rest else (k', v') :: setAssoc rest k v

def mergeCookies (old new : List (String × String)) : List (String × String) :=
  new.foldl (fun acc kv => setAssoc acc kv.1 kv.2) old

/-- The response the environment gives to the next request. -/
def nextResp (s : St) : Response :=
  s.world.getD s.trace.length default

/-- State after issuing one request: trace extended, cookies merged. -/
def pushReq (s : St) (req : Request) : St :=
  { s with trace := s.trace ++ [req],
           cookies := mergeCookies s.cookies (nextResp s).setCookies }

/-- Flow computations: state transformer with Python-exception results. -/
def M (α : Type) : Type := St → Except PyError α × St

instance : Monad M where
  pure a := fun s => (.ok a, s)
  bind m f := fun s =>
    match m s with
    | (.ok a, s') => f a s'
    | (.error e, s') => (.error e, s')

def mThrow {α : Type} (e : PyError) : M α := fun s => (.error e, s)

def mOfExcept {α : Type} : Except PyError α → M α
  | .ok a => pure a
  | .error e => mThrow e

def getCookies : M (List (String × String)) := fun s => (.ok s.cookies, s)

/-- One HTTP exchange.  `requests` raises `MissingSchema` on a blank
URL before any I/O; otherwise the request is recorded and the
environment's next response returned. -/
def rawRequest (method url : String) (hdrs : List (String × String))
    (body : Payload) (params : List (String × String)) : M Response :=
  fun s =>
    if url = "" then (.error .missingSchema, s)
    else (.ok (nextResp s), pushReq s ⟨method, url, hdrs, body, params⟩)

/-- `session.get(url, headers=HEADERS, params=...)` on a plain session. -/
def getH (url : String) (params : List (String × String)) : M Response :=
  rawRequest "GET" url HEADERS [] params

/-- `session.post(url, headers=HEADERS, data=payload)` on a plain session. -/
def postH (url : String) (body : Payload) : M Response :=
  rawRequest "POST" url HEADERS body []

/-! ## AuthSession (the session class used by `generic_auth`)

`AuthSession.request` passes no `headers` argument, and its response
hook calls `raise_for_status`, so any 4xx/5xx response raises
`requests.HTTPError`. -/

def authRequest (method url : String) (body : Payload) : M Response := do
  let r ← rawRequest method url [] body []
  if statusBad r.status then mThrow .httpError else pure r

/-- `AuthSession.find_form_field(key, value, attr)`: find the first
`input` (or, for `value == "submit"`, any tag) carrying `key=value`,
and return its `attr` attribute. -/
def find_form_field (r : Response) (key value attr : String) : Option String :=
  let p := if value = "submit" then byAttr key value else byTagAttr "input" key value
  match findNL p r.html with
  | none => none
  | some n => n.attr attr

def form_field_user (r : Response) : Option String :=
  find_form_field r "type" "text" "name"

def form_field_password (r : Response) : Option String :=
  find_form_field r "type" "password" "name"

/-- `AuthSession.saml`: the first of `SAMLRequest`/`SAMLResponse` whose
input has a truthy `value`, as a `(type, value)` pair. -/
def samlOf (r : Response) : Option (String × String) :=
  let rq := find_form_field r "name" "SAMLRequest" "value"
  if truthyS rq then some ("SAMLRequest", rq.getD "")
  else
    let rs := find_form_field r "name" "SAMLResponse" "value"
    if truthyS rs then some ("SAMLResponse", rs.getD "") else none

/-- One iteration of the payload-collection loop of
`AuthSession.post_form`: a field with a truthy `name` not already in
the payload is added with its `value` (defaulting to `""`). -/
def payloadStep (pl : Payload) (n : Node) : Payload :=
  match n.attr "name" with
  | none => pl
  | some nm =>
    if nm ≠ "" && (pl.lookup nm).isNone then
      pl ++ [(nm, some ((n.attr "value").getD ""))]
    else pl

/-- The payload-collection loop of `AuthSession.post_form` over every
`input`/`button` of the page. -/
def buildPayload (payload : Payload) (r : Response) : Payload :=
  (allNL byInputButton r.html).foldl payloadStep payload

/-- `self.response.html.find("form")["action"]`: a `TypeError` when no
form is present (subscripting `None`), a `KeyError` when the form has
no `action`. -/
def formActionOf (r : Response) : Except PyError String :=
  match findNL (byTag "form") r.html with
  | none => .error .typeError
  | some f =>
    match f.attr "action" with
    | none => .error .keyError
    | some u => .ok u

/-- `AuthSession.post_form`: collect fields, read the first form's
`action`, resolve a root-relative action against the current URL, and
POST through `AuthSession.request`. -/
def post_form (r : Response) (payload : Payload) : M Response := do
  let pl := buildPayload payload r
  let u ← mOfExcept (formActionOf r)
  let url := if startsSlash u then urljoinRoot r.url u else u
  authRequest "POST" url pl

/-! ## Flow strategies -/

/-- `generic_auth`: auto-detect SAML vs. plain form. -/
def generic_auth (username password pronote_url : String) :
    M (Option (List (String × String))) := do
  let r0 ← authRequest "GET" pronote_url []
  let has_saml := (samlOf r0).isSome
  let r1 ← if has_saml then post_form r0 [] else pure r0
  if truthyS (form_field_password r1) then
    let field_user := form_field_user r1
    let field_pass := form_field_password r1
    if !truthyS field_user || !truthyS field_pass then
      mThrow (.entLoginError "Invalid login form")
    else
      let payload := pSet (pSet [] (field_user.getD "") (some username))
        (field_pass.getD "") (some password)
      let r2 ← post_form r1 payload
      if has_saml then
        if (samlOf r2).isNone then mThrow (.entLoginError "SAML login failure")
        else do
          let _ ← post_form r2 []
          let cs ← getCookies
          pure (some cs)
      else do
        let cs ← getCookies
        pure (some cs)
  else if has_saml then mThrow (.entLoginError "SAML connection failure")
  else pure none

/-- An input named `name` (the artifact / RelayState searches of
`_sso_redirect`). -/
def inputNamed (name : String) : String → List (String × String) → Bool :=
  byTagAttr "input" "name" name

/-- The artifact-submission data of `_sso_redirect`, in source order:
build `{saml_type: value}`, `assert isinstance(relay_state, Tag)` (an
`AssertionError` when the input is absent), add
`relay_state["value"]` (a `KeyError` when it has no `value`), then
read `soup.find("form")["action"]`. -/
def ssoFormData (resp : Response) (saml_type : String) (samlN : Node) :
    Except PyError (String × Payload) :=
  let payload : Payload := [(saml_type, samlN.attr "value")]
  match findNL (inputNamed "RelayState") resp.html with
  | none => .error .assertionError
  | some relayN =>
    match relayN.attr "value" with
    | none => .error .keyError
    | some rv =>
      match findNL (byTag "form") resp.html with
      | none => .error .typeError
      | some f =>
        match f.attr "action" with
        | none => .error .keyError
        | some url => .ok (url, pSet payload "RelayState" (some rv))

/-- The tail of `_sso_redirect`: `return None` when no artifact was
found, otherwise build the payload and POST it to the form's action. -/
def ssoSubmit (resp : Response) (saml_type : String) (saml : Option Node) :
    M (Option Response) :=
  match saml with
  | none => pure none
  | some samlN => do
    let up ← mOfExcept (ssoFormData resp saml_type samlN)
    let r ← postH up.1 up.2
    pure (some r)

/-- `_sso_redirect`: locate the artifact, retry the request manually at
most once when the page looks like a client-side redirect, then submit
the artifact (plus `RelayState`) to the form's action. -/
def sso_redirect (given : Response) (saml_type request_url : String)
    (request_payload : Payload) : M (Option Response) := do
  let saml0 := findNL (inputNamed saml_type) given.html
  let rs ←
    if saml0.isNone && given.status == 200 && request_url != given.url then do
      let r ← postH given.url request_payload
      pure (r, findNL (inputNamed saml_type) r.html)
    else pure (given, saml0)
  ssoSubmit rs.1 saml_type rs.2

/-- `_educonnect`: POST the credentials, resolve the `SAMLResponse`
redirect; a falsy result (none, or a 4xx/5xx response) either raises
or yields `None` depending on `exceptions`. -/
def educonnect (username password url : String) (exceptions : Bool) :
    M (Option Response) := do
  if url = "" then mThrow (.entLoginError "Missing url attribute")
  else
    let payload : Payload :=
      [("j_username", some username), ("j_password", some password),
       ("_eventId_proceed", some "")]
    let r ← postH url payload
    let resp ← sso_redirect r "SAMLResponse" url payload
    if optTruthy resp then pure resp
    else if exceptions then
      mThrow (.entLoginError
        "Fail to connect with EduConnect : probably wrong login information")
    else pure none

/-- `_cas_edu`. -/
def cas_edu (username password url : String) (redirect_form : Bool) :
    M (List (String × String)) := do
  if url = "" then mThrow (.entLoginError "Missing url attribute")
  else
    let r0 ← getH url []
    let resp ← if redirect_form then sso_redirect r0 "SAMLResponse" url [] else pure (some r0)
    if optTruthy resp then do
      let _ ← educonnect username password ((resp.getD default).url) true
      getCookies
    else mThrow (.entLoginError "Connection failure")

/-- The `class="cas__login-form"` selector. -/
def casFormP : String → List (String × String) → Bool :=
  fun t a => t == "form" && a.lookup "class" == some "cas__login-form"

/-- `payload[input_["name"]] = input_.get("value")` over a form's
inputs; a nameless input is a `KeyError`. -/
def collectInputs : List Node → Payload → Except PyError Payload
  | [], pl => .ok pl
  | n :: rest, pl =>
    match n.attr "name" with
    | none => .error .keyError
    | some nm => collectInputs rest (pSet pl nm (n.attr "value"))

/-- `soup.find("form", sel)` followed by the input-collection loop: an
`AttributeError` (`None.findAll`) when no form matches. -/
def findFormInputs (p : String → List (String × String) → Bool) (r : Response) :
    Except PyError Payload :=
  match findNL p r.html with
  | none => .error .attributeError
  | some form => collectInputs (descendantInputs form) []

/-- `_cas`. -/
def cas (username password url : String) : M (List (String × String)) := do
  if url = "" then mThrow (.entLoginError "Missing url attribute")
  else
    let r0 ← getH url []
    let pl0 ← mOfExcept (findFormInputs casFormP r0)
    let pl := pSet (pSet pl0 "username" (some username)) "password" (some password)
    let r1 ← postH r0.url pl
    if (findNL casFormP r1.html).isSome then
      mThrow (.entLoginError
        ("Fail to connect with CAS " ++ url ++ " : probably wrong login information"))
    else getCookies

/-- `_open_ent_ng`. -/
def open_ent_ng (username password url : String) : M (List (String × String)) := do
  if url = "" then mThrow (.entLoginError "Missing url attribute")
  else
    let r ← postH url [("email", some username), ("password", some password)]
    if strContains r.url "login" then
      mThrow (.entLoginError
        ("Fail to connect with Open NG " ++ url ++ " : probably wrong login information"))
    else getCookies

def ent_login_page : String :=
  "https://educonnect.education.gouv.fr/idp/profile/SAML2/Unsolicited/SSO"

/-- `_open_ent_ng_edu`. -/
def open_ent_ng_edu (username password domain providerId : String) :
    M (List (String × String)) := do
  if domain = "" then mThrow (.entLoginError "Missing domain attribute")
  else
    let pid := if providerId = "" then domain ++ "/auth/saml/metadata/idp.xml" else providerId
    let r0 ← getH ent_login_page [("providerId", pid)]
    let resp ← educonnect username password r0.url false
    match resp with
    | none => open_ent_ng username password (domain ++ "/auth/login")
    | some rr =>
      if statusBad rr.status then open_ent_ng username password (domain ++ "/auth/login")
      else if strContains rr.url "login" then open_ent_ng username password rr.url
      else getCookies

/-- `_wayf`. -/
def wayf (username password domain entityID returnX : String) (redirect_form : Bool) :
    M (List (String × String)) := do
  if domain = "" then mThrow (.entLoginError "Missing domain attribute")
  else
    let eid := if entityID = "" then domain ++ "/shibboleth" else entityID
    let rx := if returnX = "" then domain ++ "/Shibboleth.sso/Login" else returnX
    let page := domain ++ "/discovery/WAYF"
    let params := [("entityID", eid), ("returnX", rx), ("returnIDParam", "entityID"),
                   ("action", "selection"),
                   ("origin", "https://educonnect.education.gouv.fr/idp")]
    let r0 ← getH page params
    let resp ← if redirect_form then sso_redirect r0 "SAMLRequest" page [] else pure (some r0)
    if optTruthy resp then do
      let _ ← educonnect username password ((resp.getD default).url) true
      getCookies
    else mThrow (.entLoginError "Connection failure")

/-- The `id="kc-form-login"` selector of `_oze_ent`. -/
def kcFormP : String → List (String × String) → Bool :=
  fun t a => t == "form" && a.lookup "id" == some "kc-form-login"

/-- `_oze_ent`.  JSON responses are modelled by the pre-extracted
fields of `Response` (`jsonProfil`, `jsonApps`, `jsonAutoId`,
`jsonProjet`); Python truthiness of the config values is `≠ ""`. -/
def oze_ent (username password url : String) : M (List (String × String)) := do
  if url = "" then mThrow (.entLoginError "Missing url attribute")
  else
    let r0 ← getH url []
    let domain := netlocOf url
    let uname := if strContains username domain then username else username ++ "@" ++ domain
    let pl0 ← mOfExcept (findFormInputs kcFormP r0)
    let pl := pSet (pSet pl0 "username" (some uname)) "password" (some password)
    let r1 ← postH r0.url pl
    if strContains r1.text "auth_form" then
      mThrow (.entLoginError
        ("Fail to connect with Oze ENT " ++ url ++ " : probably wrong login information"))
    else
      let api_url := replaceNetloc url ("api-" ++ netlocOf url)
      let r2 ← getH (urljoin api_url "/v1/users/me") []
      let ctx_profil := r2.jsonProfil.1
      let ctx_etab := r2.jsonProfil.2
      let r3 ← getH (urljoin api_url "/v1/ozapps")
        [("ctx_profil", ctx_profil), ("ctx_etab", ctx_etab)]
      let proxysso1 : Option String :=
        r3.jsonApps.foldl
          (fun acc app => if app.1 == "pronote" then some (urljoin url app.2) else acc)
          none
      let proxysso2 ←
        if truthyS proxysso1 then pure proxysso1
        else do
          let r4 ← getH (urljoin api_url "/v1/config/Pronote")
            [("ctx_profil", ctx_profil), ("ctx_etab", ctx_etab)]
          if r4.jsonAutoId ≠ "" && r4.jsonProjet ≠ "" then
            pure (some (url ++ "cas/proxySSO/" ++ r4.jsonAutoId ++ "?uai=" ++ ctx_etab
              ++ "&projet=" ++ r4.jsonProjet ++ "&fonction=ELV"))
          else pure proxysso1
      match proxysso2 with
      | none => mThrow .missingSchema
      | some u => do
        let _ ← getH u []
        getCookies

/-- A form matched by explicit attributes (`form_attr`). -/
def formAttrP (want : List (String × String)) : String → List (String × String) → Bool :=
  fun t a => t == "form" && want.all (fun kv => a.lookup kv.1 == some kv.2)

/-- `_simple_auth`. -/
def simple_auth (username password url : String) (form_attr : List (String × String)) :
    M (List (String × String)) := do
  if url = "" then mThrow (.entLoginError "Missing url attribute")
  else
    let r0 ← getH url []
    let pl0 ← mOfExcept (findFormInputs (formAttrP form_attr) r0)
    let pl := pSet (pSet pl0 "username" (some username)) "password" (some password)
    let r1 ← postH r0.url pl
    if (findNL (formAttrP form_attr) r1.html).isSome then
      mThrow (.entLoginError
        ("Fail to connect with " ++ url ++ " : probably wrong login information"))
    else getCookies

def hubeduconnect_url : String :=
  "https://hubeduconnect.index-education.net/EduConnect/cas/login"

def hubMarkerEmpty : String :=
  "<label id=\"zone_msgDetail\">L&#x27;url de service est vide</label>"

def hubMarkerUntrusted : String :=
  "n&#x27;est pas une url de confiance."

/-- `_hubeduconnect`.  Note: `pronote_url` is interpolated into the hub
URL without any blank/absence check. -/
def hubeduconnect (username password pronote_url : String) :
    M (List (String × String)) := do
  let url := hubeduconnect_url ++ "?service=" ++ pronote_url
  let r0 ← getH url []
  let resp ← sso_redirect r0 "SAMLRequest" url []
  match resp with
  | none => mThrow (.entLoginError "Connection failure")
  | some rr =>
    if statusBad rr.status then mThrow (.entLoginError "Connection failure")
    else if strContains rr.text hubMarkerEmpty then
      mThrow (.entLoginError "Fail to connect with HubEduConnect : Service URL not provided.")
    else if strContains rr.text hubMarkerUntrusted then
      mThrow (.entLoginError
        "Fail to connect with HubEduConnect : Service URL not trusted. Is Pronote instance supported?")
    else do
      let _ ← educonnect username password rr.url true
      getCookies

/-- Run a flow against an environment, starting from an empty trace
and cookie jar. -/
def runM {α : Type} (m : M α) (w : List Response) : Except PyError α × St :=
  m (St.init w)

/-! ## Trace invariants -/

/-- Every request in the list carries the fixed `HEADERS`. -/
def allGood (t : List Request) : Bool :=
  t.all (fun r => r.headers == HEADERS)

/-- A computation only appends requests to the trace, and every
appended request carries the fixed `HEADERS`. -/
def GoodExt {α : Type} (m : M α) : Prop :=
  ∀ s : St, ∃ t, ((m s).2).trace = s.trace ++ t ∧ allGood t = true

/-! ## Concrete fixtures -/

/-- A response with the given status, URL, document, body text and
`Set-Cookie`s (the JSON fields irrelevant outside `_oze_ent`). -/
def mkResp (status : Nat) (url : String) (html : NodeList) (text : String)
    (setCookies : List (String × String)) : Response :=
  { status := status, url := url, html := html, text := text, setCookies := setCookies,
    jsonProfil := ("", ""), jsonApps := [], jsonAutoId := "", jsonProjet := "" }

/-- A page holding a `SAMLResponse` artifact inside a form, with no
`RelayState` input. -/
def pageNoRelay : NodeList :=
  NodeList.ofList
    [Node.elem "form" [("action", "http://sp.example/acs")]
      (NodeList.ofList [Node.elem "input" [("name", "SAMLResponse"), ("value", "abc")] .nil])]

def respNoRelay : Response :=
  mkResp 200 "http://idp.example/sso" pageNoRelay "" []

/-- A blank page whose response sets one cookie. -/
def respPlainCookie : Response :=
  mkResp 200 "http://x/" .nil "" [("sess", "1")]

/-- A blank 500 response. -/
def resp500 : Response :=
  mkResp 500 "http://h/" .nil "" []

/-- A CAS login page: `form.cas__login-form` with `lt`/`execution` inputs. -/
def pageCas : NodeList :=
  NodeList.ofList
    [Node.elem "form" [("class", "cas__login-form"), ("action", "/login")]
      (NodeList.ofList
        [Node.elem "input" [("name", "lt"), ("value", "LT-1")] .nil,
         Node.elem "input" [("name", "execution"), ("value", "e1")] .nil])]

/-- The CAS login page served with a 500 status. -/
def respCas500 : Response :=
  mkResp 500 "http://cas.example/login" pageCas "" []

/-- A blank success page (no CAS form). -/
def respAfterCas : Response :=
  mkResp 200 "http://cas.example/home" .nil "" []

/-- The CAS login page served normally. -/
def respCas200 : Response :=
  mkResp 200 "http://cas.example/login" pageCas "" []

/-- A login page whose form already contains hidden `username` and
`password` inputs with page-supplied values. -/
def pageHiddenUser : NodeList :=
  NodeList.ofList
    [Node.elem "form" [("action", "/login")]
      (NodeList.ofList
        [Node.elem "input" [("name", "username"), ("value", "prefilled")] .nil,
         Node.elem "input" [("name", "password"), ("value", "prefilled")] .nil,
         Node.elem "input" [("name", "lt"), ("value", "LT-1")] .nil])]

def respHiddenUser : Response :=
  mkResp 200 "http://cas.example/login" pageHiddenUser "" []

/-- A blank 200 page at `http://a/` (no artifact anywhere). -/
def respBlankA : Response :=
  mkResp 200 "http://a/" .nil "" []

/-- A response whose final URL contains `login` (rejected POST). -/
def respLogin : Response :=
  mkResp 200 "http://x/login?err" .nil "" []

/-- The CAS login page, setting a ticket-granting cookie. -/
def respCasTgc : Response :=
  mkResp 200 "http://cas.example/login" pageCas "" [("TGC", "t1")]

/-- The post-submit success page, setting a session cookie. -/
def respCasSess : Response :=
  mkResp 200 "http://cas.example/home" .nil "" [("sess", "2")]

/-- An Oze login page: `form#kc-form-login` with one hidden input. -/
def pageOze : NodeList :=
  NodeList.ofList
    [Node.elem "form" [("id", "kc-form-login"), ("action", "/auth")]
      (NodeList.ofList [Node.elem "input" [("name", "session_code"), ("value", "sc")] .nil])]

def respOze0 : Response :=
  mkResp 200 "http://oze.example/" pageOze "" []

/-- The Oze post-login page (no `auth_form` marker in the body). -/
def respOze1 : Response :=
  mkResp 200 "http://oze.example/home" .nil "" []

/-- The `/v1/users/me` answer. -/
def respOzeInfo : Response :=
  { status := 200, url := "http://api-oze.example/v1/users/me", html := .nil, text := "",
    setCookies := [], jsonProfil := ("ELV", "0561234A"), jsonApps := [],
    jsonAutoId := "", jsonProjet := "" }

/-- The `/v1/ozapps` answer: no entry with code `pronote`. -/
def respOzeApps : Response :=
  { status := 200, url := "http://api-oze.example/v1/ozapps", html := .nil, text := "",
    setCookies := [], jsonProfil := ("", ""), jsonApps := [("mail", "/mail")],
    jsonAutoId := "", jsonProjet := "" }

/-- The `/v1/config/Pronote` answer: falsy `autorisationId`. -/
def respOzeCfg : Response :=
  { status := 200, url := "http://api-oze.example/v1/config/Pronote", html := .nil, text := "",
    setCookies := [], jsonProfil := ("", ""), jsonApps := [],
    jsonAutoId := "", jsonProjet := "p1" }

/-! # Claims -/

/-! ### Evaluation lemmas for the session monad -/

theorem M_bind_eq {α β : Type} (m : M α) (f : α → M β) (s : St) :
    (m >>= f) s =
      match m s with
      | (.ok a, s') => f a s'
      | (.error e, s') => (.error e, s') := rfl

theorem M_pure_eq {α : Type} (a : α) (s : St) : (pure a : M α) s = (.ok a, s) := rfl

theorem mThrow_eq {α : Type} (e : PyError) (s : St) : (mThrow e : M α) s = (.error e, s) := rfl

theorem getCookies_eq (s : St) : getCookies s = (.ok s.cookies, s) := rfl

theorem rawRequest_ok (method url : String) (hdrs : List (String × String))
    (body : Payload) (params : List (String × String)) (s : St) (h : url ≠ "") :
    rawRequest method url hdrs body params s
      = (.ok (nextResp s), pushReq s ⟨method, url, hdrs, body, params⟩) := by
  unfold rawRequest
  rw [if_neg h]

/-- C1 (amended): each strategy that validates its required parameter
(`_educonnect`, `_cas_edu`, `_cas`, `_open_ent_ng`, `_open_ent_ng_edu`,
`_wayf`, `_oze_ent`, `_simple_auth`) raises `ENTLoginError`
synchronously when the parameter is blank, with zero requests issued.
(`generic_auth` and `_hubeduconnect` perform no such check.) -/
theorem C1_blank_param_raises_before_requests
    (u p pid eid rx : String) (b rf : Bool) (fa : List (String × String))
    (w : List Response) :
    ((runM (educonnect u p "" b) w).1 = .error (.entLoginError "Missing url attribute")
      ∧ (runM (educonnect u p "" b) w).2.trace = [])
    ∧ ((runM (cas_edu u p "" rf) w).1 = .error (.entLoginError "Missing url attribute")
      ∧ (runM (cas_edu u p "" rf) w).2.trace = [])
    ∧ ((runM (cas u p "") w).1 = .error (.entLoginError "Missing url attribute")
      ∧ (runM (cas u p "") w).2.trace = [])
    ∧ ((runM (open_ent_ng u p "") w).1 = .error (.entLoginError "Missing url attribute")
      ∧ (runM (open_ent_ng u p "") w).2.trace = [])
    ∧ ((runM (open_ent_ng_edu u p "" pid) w).1 = .error (.entLoginError "Missing domain attribute")
      ∧ (runM (open_ent_ng_edu u p "" pid) w).2.trace = [])
    ∧ ((runM (wayf u p "" eid rx rf) w).1 = .error (.entLoginError "Missing domain attribute")
      ∧ (runM (wayf u p "" eid rx rf) w).2.trace = [])
    ∧ ((runM (oze_ent u p "") w).1 = .error (.entLoginError "Missing url attribute")
      ∧ (runM (oze_ent u p "") w).2.trace = [])
    ∧ ((runM (simple_auth u p "" fa) w).1 = .error (.entLoginError "Missing url attribute")
      ∧ (runM (simple_auth u p "" fa) w).2.trace = []) :=
  ⟨⟨rfl, rfl⟩, ⟨rfl, rfl⟩, ⟨rfl, rfl⟩, ⟨rfl, rfl⟩,
   ⟨rfl, rfl⟩, ⟨rfl, rfl⟩, ⟨rfl, rfl⟩, ⟨rfl, rfl⟩⟩

/-- C1 counterexample: with a blank `pronote_url`, `_hubeduconnect`
raises no configuration error before I/O — it issues a network request
(here one GET, after which the flow fails for a different reason) — and
`generic_auth` fails with the untyped `MissingSchema`, not
`ENTLoginError`. -/
theorem C1_counterexample :
    (runM (hubeduconnect "u" "p" "") [resp500]).2.trace.length = 1
    ∧ (runM (hubeduconnect "u" "p" "") [resp500]).1
        = .error (.entLoginError "Connection failure")
    ∧ (runM (generic_auth "u" "p" "") []).1 = .error .missingSchema
    ∧ (runM (generic_auth "u" "p" "") []).2.trace = [] :=
  ⟨rfl, rfl, rfl, rfl⟩

/-- C4: on a page that contains the requested `SAMLResponse` artifact
but no `RelayState` input, `_sso_redirect` fails its
`assert isinstance(relay_state, Tag)` with an `AssertionError` instead
of POSTing the artifact-only payload. -/
theorem C4_missing_relaystate_asserts :
    (findNL (inputNamed "SAMLResponse") respNoRelay.html).isSome = true
    ∧ findNL (inputNamed "RelayState") respNoRelay.html = none
    ∧ (findNL (byTag "form") respNoRelay.html).isSome = true
    ∧ (sso_redirect respNoRelay "SAMLResponse" "http://idp.example/sso" [] (St.init [])).1
        = .error .assertionError
    ∧ (sso_redirect respNoRelay "SAMLResponse" "http://idp.example/sso" [] (St.init [])).2.trace
        = [] :=
  ⟨rfl, rfl, rfl, rfl, rfl⟩

/-- C5 counterexample: when the provider page has neither a SAML
artifact nor a password field, `generic_auth` returns the Python value
`None` — not the session's cookie jar, which here is non-empty. -/
theorem C5_counterexample :
    (runM (generic_auth "u" "p" "http://x") [respPlainCookie]).1 = .ok none
    ∧ (runM (generic_auth "u" "p" "http://x") [respPlainCookie]).2.cookies = [("sess", "1")]
    ∧ ((Except.ok none : Except PyError (Option (List (String × String))))
        ≠ .ok (some [("sess", "1")])) :=
  ⟨rfl, rfl, by simp⟩

/-- C7 counterexample: `generic_auth`'s `AuthSession` passes no
`headers` argument, so its one request here carries no `User-Agent`
entry at all. -/
theorem C7_counterexample :
    (runM (generic_auth "u" "p" "http://x") [respPlainCookie]).2.trace.length = 1
    ∧ allGood (runM (generic_auth "u" "p" "http://x") [respPlainCookie]).2.trace = false :=
  ⟨rfl, rfl⟩

/-- C9 counterexample: `_cas` runs on a plain `requests.Session` with
no `raise_for_status` hook: after a 500 response to the login-page GET
it still submits the credentials (a second request) and returns
cookies. -/
theorem C9_counterexample :
    statusBad respCas500.status = true
    ∧ (runM (cas "alice" "secret" "http://cas.example/login")
        [respCas500, respAfterCas]).2.trace.length = 2
    ∧ (runM (cas "alice" "secret" "http://cas.example/login")
        [respCas500, respAfterCas]).1 = .ok [] :=
  ⟨rfl, rfl, rfl⟩

/-- C9 (amended): only `generic_auth`'s `AuthSession` reacts to the
HTTP status: its `raise_for_status` hook raises `HTTPError` on a
4xx/5xx response, aborting the flow immediately after the first
request — no further request is issued and no cookies are returned. -/
theorem C9_authsession_aborts (u p url : String) (w : List Response)
    (hurl : url ≠ "") (hbad : statusBad (nextResp (St.init w)).status = true) :
    (runM (generic_auth u p url) w).1 = .error .httpError
    ∧ (runM (generic_auth u p url) w).2.trace = [⟨"GET", url, [], [], []⟩] := by
  have hreq : rawRequest "GET" url [] [] [] (St.init w)
      = (.ok (nextResp (St.init w)), pushReq (St.init w) ⟨"GET", url, [], [], []⟩) :=
    rawRequest_ok _ _ _ _ _ _ hurl
  have hauth : authRequest "GET" url [] (St.init w)
      = (.error .httpError, pushReq (St.init w) ⟨"GET", url, [], [], []⟩) := by
    unfold authRequest
    rw [M_bind_eq, hreq]
    simp [hbad, mThrow_eq]
  constructor
  · simp only [runM, generic_auth, M_bind_eq, hauth]
  · simp only [runM, generic_auth, M_bind_eq, hauth]
    simp [pushReq, St.init]

/-- C5 (amended): when the provider page (first response) has neither a
SAML artifact nor a password-type field, `generic_auth` succeeds but
returns the Python value `None`, not the session's cookie jar. -/
theorem C5_no_auth_returns_none (u p url : String) (w : List Response)
    (hurl : url ≠ "")
    (hok : statusBad (nextResp (St.init w)).status = false)
    (hsaml : samlOf (nextResp (St.init w)) = none)
    (hpw : truthyS (form_field_password (nextResp (St.init w))) = false) :
    (runM (generic_auth u p url) w).1 = .ok none := by
  have hreq : rawRequest "GET" url [] [] [] (St.init w)
      = (.ok (nextResp (St.init w)), pushReq (St.init w) ⟨"GET", url, [], [], []⟩) :=
    rawRequest_ok _ _ _ _ _ _ hurl
  have hauth : authRequest "GET" url [] (St.init w)
      = (.ok (nextResp (St.init w)), pushReq (St.init w) ⟨"GET", url, [], [], []⟩) := by
    unfold authRequest
    rw [M_bind_eq, hreq]
    simp [hok, M_pure_eq]
  simp only [runM, generic_auth, M_bind_eq, hauth, hsaml, hpw, M_pure_eq,
    Option.isSome_none, Bool.false_eq_true, if_false]

/-- C9 witness: `generic_auth` against a 500 first response. -/
theorem C9_authsession_aborts_witness :
    (runM (generic_auth "u" "p" "http://h") [resp500]).1 = .error .httpError
    ∧ (runM (generic_auth "u" "p" "http://h") [resp500]).2.trace
        = [⟨"GET", "http://h", [], [], []⟩] :=
  C9_authsession_aborts "u" "p" "http://h" [resp500] (by decide) rfl

/-- C5 witness: `generic_auth` against a page with no artifact and no
password field. -/
theorem C5_no_auth_returns_none_witness :
    (runM (generic_auth "u" "p" "http://x") [respPlainCookie]).1 = .ok none :=
  C5_no_auth_returns_none "u" "p" "http://x" [respPlainCookie] (by decide) rfl rfl rfl

theorem getH_ok (url : String) (params : List (String × String)) (s : St) (h : url ≠ "") :
    getH url params s = (.ok (nextResp s), pushReq s ⟨"GET", url, HEADERS, [], params⟩) :=
  rawRequest_ok _ _ _ _ _ _ h

theorem postH_ok (url : String) (body : Payload) (s : St) (h : url ≠ "") :
    postH url body s = (.ok (nextResp s), pushReq s ⟨"POST", url, HEADERS, body, []⟩) :=
  rawRequest_ok _ _ _ _ _ _ h

theorem truthyS_none : truthyS none = false := rfl

theorem urljoinRoot_ne_empty (b p : String) (hp : p ≠ "") : urljoinRoot b p ≠ "" := by
  unfold urljoinRoot
  cases h : splitSub "://".toList b.toList with
  | none => exact hp
  | some pr =>
    intro hc
    have hlen := congrArg String.length hc
    rw [String.length_append, String.length_append, String.length_append] at hlen
    rw [show ("://" : String).length = 3 from rfl] at hlen
    rw [show ("" : String).length = 0 from rfl] at hlen
    omega

/-- `urljoin` with a root-relative, scheme-free, non-empty path never
yields a blank URL. -/
theorem urljoin_vpath_ne (b rel : String)
    (hrel : splitSub "://".toList rel.toList = none)
    (hs : startsSlash rel = true) (hne : rel ≠ "") : urljoin b rel ≠ "" := by
  unfold urljoin
  rw [hrel]
  simp only [Option.isSome_none, Bool.false_eq_true, if_false, hs, if_true]
  exact urljoinRoot_ne_empty b rel hne

/-- With no `pronote` entry in the apps listing, the proxy-SSO
accumulator passes through unchanged. -/
theorem foldl_no_pronote (url : String) (apps : List (String × String))
    (h : apps.all (fun a => !(a.1 == "pronote")) = true) (acc : Option String) :
    apps.foldl
      (fun acc app => if app.1 == "pronote" then some (urljoin url app.2) else acc)
      acc = acc := by
  induction apps generalizing acc with
  | nil => rfl
  | cons a rest ih =>
    rw [List.all_cons, Bool.and_eq_true] at h
    rw [List.foldl_cons]
    have ha : (a.1 == "pronote") = false := by
      cases hb : (a.1 == "pronote")
      · rfl
      · rw [hb] at h
        simp at h
    rw [ha]
    simp only [Bool.false_eq_true, if_false]
    exact ih h.2 acc

/-! ### Payload-preservation lemmas for C3 -/

theorem lookup_append_left (pl l2 : Payload) (k : String) (v : Option String)
    (h : pl.lookup k = some v) : (pl ++ l2).lookup k = some v := by
  induction pl with
  | nil => simp [List.lookup] at h
  | cons kv rest ih =>
    rw [List.cons_append]
    cases hk : (k == kv.1) with
    | true =>
      rw [List.lookup] at h ⊢
      simp only [hk] at h ⊢
      exact h
    | false =>
      rw [List.lookup] at h ⊢
      simp only [hk] at h ⊢
      exact ih h

theorem payloadStep_preserves (pl : Payload) (n : Node) (k : String) (v : Option String)
    (h : pl.lookup k = some v) : (payloadStep pl n).lookup k = some v := by
  unfold payloadStep
  split
  · exact h
  · split
    · exact lookup_append_left _ _ _ _ h
    · exact h

theorem foldl_payloadStep_preserves (fs : List Node) (pl : Payload) (k : String)
    (v : Option String) (h : pl.lookup k = some v) :
    (fs.foldl payloadStep pl).lookup k = some v := by
  induction fs generalizing pl with
  | nil => simpa using h
  | cons n rest ih => exact ih _ (payloadStep_preserves _ _ _ _ h)

/-- C3: `post_form` never overwrites a caller-supplied field with a
page-scraped one: every key of the caller's payload keeps the caller's
value in the collected payload, and the POST issued by `post_form`
carries exactly that value for it. -/
theorem C3_post_form_keeps_caller_values (r : Response) (pl : Payload) (s : St)
    (k : String) (v : Option String) (h : pl.lookup k = some v) :
    (buildPayload pl r).lookup k = some v
    ∧ ∀ resp s', post_form r pl s = (.ok resp, s') →
        ∃ req, s'.trace = s.trace ++ [req] ∧ req.body.lookup k = some v := by
  have h1 : (buildPayload pl r).lookup k = some v :=
    foldl_payloadStep_preserves _ _ _ _ h
  refine ⟨h1, ?_⟩
  intro resp s' hrun
  rcases hfa : formActionOf r with e | u
  · simp [post_form, M_bind_eq, hfa, mOfExcept, mThrow_eq] at hrun
  · simp only [post_form, M_bind_eq, hfa, mOfExcept, M_pure_eq] at hrun
    by_cases hu : (if startsSlash u = true then urljoinRoot r.url u else u) = ""
    · rw [hu] at hrun
      rw [show authRequest "POST" "" (buildPayload pl r) s
          = (.error .missingSchema, s) from rfl] at hrun
      simp at hrun
    · cases hb : statusBad (nextResp s).status with
      | true =>
        have har : authRequest "POST" (if startsSlash u = true then urljoinRoot r.url u else u)
            (buildPayload pl r) s
            = (.error .httpError, pushReq s ⟨"POST",
                if startsSlash u = true then urljoinRoot r.url u else u,
                [], buildPayload pl r, []⟩) := by
          unfold authRequest
          rw [M_bind_eq, rawRequest_ok _ _ _ _ _ _ hu]
          simp [hb, mThrow_eq]
        rw [har] at hrun
        simp at hrun
      | false =>
        have har : authRequest "POST" (if startsSlash u = true then urljoinRoot r.url u else u)
            (buildPayload pl r) s
            = (.ok (nextResp s), pushReq s ⟨"POST",
                if startsSlash u = true then urljoinRoot r.url u else u,
                [], buildPayload pl r, []⟩) := by
          unfold authRequest
          rw [M_bind_eq, rawRequest_ok _ _ _ _ _ _ hu]
          simp [hb, M_pure_eq]
        rw [har] at hrun
        simp only [Prod.mk.injEq] at hrun
        obtain ⟨-, h3⟩ := hrun
        exact ⟨⟨"POST", if startsSlash u = true then urljoinRoot r.url u else u,
          [], buildPayload pl r, []⟩, by rw [← h3]; rfl, h1⟩

/-- C3 witness: the caller's `username` survives collection over a page
whose form already holds a hidden `username` input. -/
theorem C3_witness :
    (buildPayload [("username", some "alice")] respHiddenUser).lookup "username"
      = some (some "alice") :=
  (C3_post_form_keeps_caller_values respHiddenUser [("username", some "alice")]
    (St.init []) "username" (some "alice") rfl).1

/-! ### Request-count lemmas for C2 -/

/-- The submission stage of `_sso_redirect` issues at most one request,
and none at all when it concludes that no artifact is present. -/
theorem ssoSubmit_bound (resp : Response) (k : String) (saml : Option Node) (s : St)
    (res : Except PyError (Option Response)) (s' : St)
    (hrun : ssoSubmit resp k saml s = (res, s')) :
    ∃ t, s'.trace = s.trace ++ t ∧ t.length ≤ 1 ∧ (res = .ok none → t = []) := by
  cases saml with
  | none =>
    rw [ssoSubmit, M_pure_eq, Prod.mk.injEq] at hrun
    obtain ⟨hres, hs⟩ := hrun
    exact ⟨[], by rw [← hs, List.append_nil], by simp, fun _ => rfl⟩
  | some n =>
    simp only [ssoSubmit, M_bind_eq] at hrun
    rcases hfa : ssoFormData resp k n with e | up
    · simp only [hfa, mOfExcept, mThrow_eq] at hrun
      rw [Prod.mk.injEq] at hrun
      obtain ⟨hres, hs⟩ := hrun
      exact ⟨[], by rw [← hs, List.append_nil], by simp, fun _ => rfl⟩
    · simp only [hfa, mOfExcept, M_pure_eq, M_bind_eq] at hrun
      by_cases hu : up.1 = ""
      · rw [hu] at hrun
        rw [show postH "" up.2 s = (.error .missingSchema, s) from rfl] at hrun
        simp only [] at hrun
        rw [Prod.mk.injEq] at hrun
        obtain ⟨hres, hs⟩ := hrun
        exact ⟨[], by rw [← hs, List.append_nil], by simp, fun _ => rfl⟩
      · rw [show postH up.1 up.2 s = rawRequest "POST" up.1 HEADERS up.2 [] s from rfl,
          rawRequest_ok _ _ _ _ _ _ hu] at hrun
        simp only [M_pure_eq] at hrun
        rw [Prod.mk.injEq] at hrun
        obtain ⟨hres, hs⟩ := hrun
        refine ⟨[⟨"POST", up.1, HEADERS, up.2, []⟩], by rw [← hs]; rfl, by simp, ?_⟩
        intro hok
        rw [← hres] at hok
        exact absurd hok (by simp)

/-- C2: when the given response has status exactly 200, lacks the
requested artifact, and has a URL different from the requested one,
`_sso_redirect` reissues the request exactly once: if the retry
response also lacks the artifact, it concludes "no artifact" having
issued exactly one additional request; and in every invocation the
resolver issues at most two requests in total, at most one of them
before a "no artifact" conclusion. -/
theorem C2_sso_retry_exactly_once (given : Response) (k u : String) (pl : Payload) (s : St) :
    (findNL (inputNamed k) given.html = none → given.status = 200 → u ≠ given.url →
      given.url ≠ "" → findNL (inputNamed k) (nextResp s).html = none →
      sso_redirect given k u pl s
        = (.ok none, pushReq s ⟨"POST", given.url, HEADERS, pl, []⟩))
    ∧ (∀ res s', sso_redirect given k u pl s = (res, s') →
        ∃ t, s'.trace = s.trace ++ t ∧ t.length ≤ 2
          ∧ (res = .ok none → t.length ≤ 1)) := by
  constructor
  · intro h1 h2 h3 h4 h5
    have hreq : rawRequest "POST" given.url HEADERS pl [] s
        = (.ok (nextResp s), pushReq s ⟨"POST", given.url, HEADERS, pl, []⟩) :=
      rawRequest_ok _ _ _ _ _ _ h4
    have hcond : ((findNL (inputNamed k) given.html).isNone && (given.status == 200)
        && (u != given.url)) = true := by
      simp [h1, h2, bne_iff_ne, h3]
    simp only [sso_redirect, M_bind_eq, hcond, if_true, eq_self_iff_true, postH, hreq,
      M_pure_eq]
    simp [ssoSubmit, h5, M_pure_eq]
  · intro res s' hrun
    simp only [sso_redirect, M_bind_eq] at hrun
    cases hcv : ((findNL (inputNamed k) given.html).isNone && (given.status == 200)
        && (u != given.url)) with
    | true =>
      simp only [hcv, if_true, eq_self_iff_true, M_bind_eq] at hrun
      by_cases hgu : given.url = ""
      · rw [hgu] at hrun
        rw [show postH "" pl s = (.error .missingSchema, s) from rfl] at hrun
        simp only [] at hrun
        rw [Prod.mk.injEq] at hrun
        obtain ⟨hres, hs⟩ := hrun
        exact ⟨[], by rw [← hs, List.append_nil], by simp, fun _ => by simp⟩
      · rw [show postH given.url pl s = rawRequest "POST" given.url HEADERS pl [] s from rfl,
          rawRequest_ok _ _ _ _ _ _ hgu] at hrun
        simp only [M_pure_eq] at hrun
        obtain ⟨t1, ht, hlen, hok⟩ := ssoSubmit_bound _ _ _ _ _ _ hrun
        refine ⟨⟨"POST", given.url, HEADERS, pl, []⟩ :: t1, ?_, ?_, ?_⟩
        · rw [ht]
          show (s.trace ++ [⟨"POST", given.url, HEADERS, pl, []⟩]) ++ t1 = _
          rw [List.append_assoc]
          rfl
        · simpa using Nat.succ_le_succ hlen
        · intro hresok
          rw [hok hresok]
          simp
    | false =>
      simp only [hcv, Bool.false_eq_true, if_false, M_pure_eq] at hrun
      obtain ⟨t1, ht, hlen, _⟩ := ssoSubmit_bound _ _ _ _ _ _ hrun
      exact ⟨t1, ht, Nat.le_trans hlen (by simp), fun _ => hlen⟩

/-- C2 witness: a blank 200 page at a different URL than requested,
whose manual-redirect retry also lacks the artifact. -/
theorem C2_sso_retry_exactly_once_witness :
    sso_redirect respBlankA "SAMLResponse" "http://req/" [] (St.init [respBlankA])
      = (.ok none, pushReq (St.init [respBlankA]) ⟨"POST", "http://a/", HEADERS, [], []⟩) :=
  (C2_sso_retry_exactly_once respBlankA "SAMLResponse" "http://req/" []
    (St.init [respBlankA])).1 rfl rfl (by decide) (by decide) rfl

/-- C6 (amended): a `_cas` run that reaches the credential-submission
step raises `ENTLoginError` iff the post-submit response contains a
form with class `cas__login-form`; when the selector is absent it
returns the cookie jar accumulated over both requests, which may be
empty if no response ever set a cookie. -/
theorem C6_cas_reject_iff_selector (u p url : String) (r0 r1 : Response) (pl0 : Payload)
    (hurl : url ≠ "")
    (hcoll : findFormInputs casFormP r0 = .ok pl0)
    (hr0url : r0.url ≠ "") :
    ((runM (cas u p url) [r0, r1]).1
        = .error (.entLoginError
            ("Fail to connect with CAS " ++ url ++ " : probably wrong login information"))
      ↔ (findNL casFormP r1.html).isSome = true)
    ∧ (findNL casFormP r1.html = none →
        (runM (cas u p url) [r0, r1]).1
          = .ok (mergeCookies (mergeCookies [] r0.setCookies) r1.setCookies)) := by
  have h0 : getH url [] (St.init [r0, r1])
      = (.ok r0, pushReq (St.init [r0, r1]) ⟨"GET", url, HEADERS, [], []⟩) := by
    rw [show getH url [] = rawRequest "GET" url HEADERS [] [] from rfl,
      rawRequest_ok _ _ _ _ _ _ hurl]
    rfl
  have h1 : postH r0.url (pSet (pSet pl0 "username" (some u)) "password" (some p))
      (pushReq (St.init [r0, r1]) ⟨"GET", url, HEADERS, [], []⟩)
      = (.ok r1, pushReq (pushReq (St.init [r0, r1]) ⟨"GET", url, HEADERS, [], []⟩)
          ⟨"POST", r0.url, HEADERS, pSet (pSet pl0 "username" (some u)) "password" (some p),
            []⟩) := by
    rw [show postH r0.url (pSet (pSet pl0 "username" (some u)) "password" (some p))
        = rawRequest "POST" r0.url HEADERS
            (pSet (pSet pl0 "username" (some u)) "password" (some p)) [] from rfl,
      rawRequest_ok _ _ _ _ _ _ hr0url]
    rfl
  have hrun : (cas u p url) (St.init [r0, r1])
      = (if (findNL casFormP r1.html).isSome then
          mThrow (.entLoginError
            ("Fail to connect with CAS " ++ url ++ " : probably wrong login information"))
        else getCookies)
        (pushReq (pushReq (St.init [r0, r1]) ⟨"GET", url, HEADERS, [], []⟩)
          ⟨"POST", r0.url, HEADERS, pSet (pSet pl0 "username" (some u)) "password" (some p),
            []⟩) := by
    simp only [cas]
    rw [if_neg hurl]
    simp only [M_bind_eq, h0, mOfExcept, hcoll, M_pure_eq, h1]
  cases hsel : (findNL casFormP r1.html) with
  | some n =>
    have hv := hrun
    rw [hsel] at hv
    simp only [Option.isSome_some, if_true, mThrow_eq] at hv
    constructor
    · rw [runM, hv]
      simp [hsel]
    · intro hnone
      simp [hsel] at hnone
  | none =>
    have hv := hrun
    rw [hsel] at hv
    simp only [Option.isSome_none, Bool.false_eq_true, if_false, getCookies_eq] at hv
    constructor
    · rw [runM, hv]
      simp [hsel]
    · intro _
      rw [runM, hv]
      rfl

/-- C6 witness: valid credentials (selector absent) return the cookies
accumulated across both requests. -/
theorem C6_cas_reject_iff_selector_witness :
    (runM (cas "alice" "secret" "http://cas.example/login") [respCasTgc, respCasSess]).1
      = .ok (mergeCookies (mergeCookies [] respCasTgc.setCookies) respCasSess.setCookies) :=
  (C6_cas_reject_iff_selector "alice" "secret" "http://cas.example/login"
    respCasTgc respCasSess [("lt", some "LT-1"), ("execution", some "e1")]
    (by decide) rfl (by decide)).2 rfl

/-- C6 counterexample: a successful `_cas` run (rejection selector
absent from the post-submit page) in which no response ever sets a
cookie returns the empty cookie jar, not a non-empty mapping. -/
theorem C6_counterexample :
    findNL casFormP respAfterCas.html = none
    ∧ (runM (cas "alice" "secret" "http://cas.example/login")
        [respCas200, respAfterCas]).1 = .ok [] :=
  ⟨rfl, rfl⟩

/-! ### Header discipline: every plain-session request carries `HEADERS`

`GoodExt m` says `m` only appends requests to the trace, all of them
carrying the fixed `HEADERS`.  The combinators below let it follow the
structure of each flow. -/

theorem goodExt_pure {α : Type} (a : α) : GoodExt (pure a : M α) :=
  fun s => ⟨[], by rw [M_pure_eq, List.append_nil], rfl⟩

theorem goodExt_throw {α : Type} (e : PyError) : GoodExt (mThrow e : M α) :=
  fun s => ⟨[], by rw [mThrow_eq, List.append_nil], rfl⟩

theorem goodExt_getCookies : GoodExt getCookies :=
  fun s => ⟨[], by rw [getCookies_eq, List.append_nil], rfl⟩

theorem goodExt_ofExcept {α : Type} (x : Except PyError α) : GoodExt (mOfExcept x) := by
  cases x with
  | ok a => exact goodExt_pure a
  | error e => exact goodExt_throw e

theorem goodExt_ite {α : Type} {c : Prop} {inst : Decidable c} {m1 m2 : M α}
    (h1 : GoodExt m1) (h2 : GoodExt m2) : GoodExt (@ite _ c inst m1 m2) := by
  cases inst with
  | isTrue hc => exact h1
  | isFalse hc => exact h2

theorem goodExt_bind {α β : Type} {m : M α} {f : α → M β}
    (hm : GoodExt m) (hf : ∀ a, GoodExt (f a)) : GoodExt (m >>= f) := by
  intro s
  rcases hq : m s with ⟨res, s1⟩
  obtain ⟨t1, ht1, hg1⟩ := hm s
  rw [hq] at ht1
  cases res with
  | ok a =>
    obtain ⟨t2, ht2, hg2⟩ := hf a s1
    refine ⟨t1 ++ t2, ?_, ?_⟩
    · simp only [M_bind_eq, hq]
      rw [ht2, ht1, List.append_assoc]
    · rw [allGood, List.all_append, Bool.and_eq_true]
      exact ⟨hg1, hg2⟩
  | error e =>
    refine ⟨t1, ?_, hg1⟩
    simp only [M_bind_eq, hq]
    exact ht1

theorem goodExt_rawH (method url : String) (body : Payload)
    (params : List (String × String)) : GoodExt (rawRequest method url HEADERS body params) := by
  intro s
  by_cases h : url = ""
  · refine ⟨[], ?_, rfl⟩
    rw [h]
    rw [show rawRequest method "" HEADERS body params s = (.error .missingSchema, s) from rfl,
      List.append_nil]
  · refine ⟨[⟨method, url, HEADERS, body, params⟩], ?_, rfl⟩
    rw [rawRequest_ok _ _ _ _ _ _ h]
    rfl

theorem goodExt_getH (url : String) (params : List (String × String)) :
    GoodExt (getH url params) :=
  goodExt_rawH "GET" url [] params

theorem goodExt_postH (url : String) (body : Payload) : GoodExt (postH url body) :=
  goodExt_rawH "POST" url body []

theorem goodExt_ssoSubmit (resp : Response) (k : String) (saml : Option Node) :
    GoodExt (ssoSubmit resp k saml) := by
  cases saml with
  | none => exact goodExt_pure none
  | some n =>
    exact goodExt_bind (goodExt_ofExcept _)
      (fun up => goodExt_bind (goodExt_postH _ _) (fun r => goodExt_pure _))

theorem goodExt_sso (given : Response) (k ru : String) (pl : Payload) :
    GoodExt (sso_redirect given k ru pl) := by
  unfold sso_redirect
  apply goodExt_ite
  · apply goodExt_bind (goodExt_postH _ _)
    intro r
    apply goodExt_bind (goodExt_pure _)
    intro rs
    exact goodExt_ssoSubmit _ _ _
  · apply goodExt_bind (goodExt_pure _)
    intro rs
    exact goodExt_ssoSubmit _ _ _

theorem goodExt_educonnect (u p url : String) (ex : Bool) :
    GoodExt (educonnect u p url ex) := by
  unfold educonnect
  apply goodExt_ite
  · exact goodExt_throw _
  · apply goodExt_bind (goodExt_postH _ _)
    intro r
    apply goodExt_bind (goodExt_sso _ _ _ _)
    intro resp
    apply goodExt_ite
    · exact goodExt_pure _
    · apply goodExt_ite
      · exact goodExt_throw _
      · exact goodExt_pure _

theorem goodExt_cas_edu (u p url : String) (rf : Bool) : GoodExt (cas_edu u p url rf) := by
  unfold cas_edu
  apply goodExt_ite
  · exact goodExt_throw _
  · apply goodExt_bind (goodExt_getH _ _)
    intro r0
    cases rf
    · apply goodExt_bind (goodExt_pure _)
      intro resp
      apply goodExt_ite
      · exact goodExt_bind (goodExt_educonnect _ _ _ _) (fun _ => goodExt_getCookies)
      · exact goodExt_throw _
    · apply goodExt_bind (goodExt_sso _ _ _ _)
      intro resp
      apply goodExt_ite
      · exact goodExt_bind (goodExt_educonnect _ _ _ _) (fun _ => goodExt_getCookies)
      · exact goodExt_throw _

theorem goodExt_cas (u p url : String) : GoodExt (cas u p url) := by
  unfold cas
  apply goodExt_ite
  · exact goodExt_throw _
  · apply goodExt_bind (goodExt_getH _ _)
    intro r0
    apply goodExt_bind (goodExt_ofExcept _)
    intro pl0
    apply goodExt_bind (goodExt_postH _ _)
    intro r1
    apply goodExt_ite
    · exact goodExt_throw _
    · exact goodExt_getCookies

theorem goodExt_open_ent_ng (u p url : String) : GoodExt (open_ent_ng u p url) := by
  unfold open_ent_ng
  apply goodExt_ite
  · exact goodExt_throw _
  · apply goodExt_bind (goodExt_postH _ _)
    intro r
    apply goodExt_ite
    · exact goodExt_throw _
    · exact goodExt_getCookies

theorem goodExt_open_ent_ng_edu (u p domain providerId : String) :
    GoodExt (open_ent_ng_edu u p domain providerId) := by
  unfold open_ent_ng_edu
  apply goodExt_ite
  · exact goodExt_throw _
  · apply goodExt_bind (goodExt_getH _ _)
    intro r0
    apply goodExt_bind (goodExt_educonnect _ _ _ _)
    intro resp
    cases resp with
    | none => exact goodExt_open_ent_ng _ _ _
    | some rr =>
      apply goodExt_ite
      · exact goodExt_open_ent_ng _ _ _
      · apply goodExt_ite
        · exact goodExt_open_ent_ng _ _ _
        · exact goodExt_getCookies

theorem goodExt_wayf (u p domain entityID returnX : String) (rf : Bool) :
    GoodExt (wayf u p domain entityID returnX rf) := by
  unfold wayf
  apply goodExt_ite
  · exact goodExt_throw _
  · apply goodExt_bind (goodExt_getH _ _)
    intro r0
    cases rf
    · apply goodExt_bind (goodExt_pure _)
      intro resp
      apply goodExt_ite
      · exact goodExt_bind (goodExt_educonnect _ _ _ _) (fun _ => goodExt_getCookies)
      · exact goodExt_throw _
    · apply goodExt_bind (goodExt_sso _ _ _ _)
      intro resp
      apply goodExt_ite
      · exact goodExt_bind (goodExt_educonnect _ _ _ _) (fun _ => goodExt_getCookies)
      · exact goodExt_throw _

theorem goodExt_oze_ent (u p url : String) : GoodExt (oze_ent u p url) := by
  unfold oze_ent
  apply goodExt_ite
  · exact goodExt_throw _
  · apply goodExt_bind (goodExt_getH _ _)
    intro r0
    apply goodExt_bind (goodExt_ofExcept _)
    intro pl0
    apply goodExt_bind (goodExt_postH _ _)
    intro r1
    apply goodExt_ite
    · exact goodExt_throw _
    · apply goodExt_bind (goodExt_getH _ _)
      intro r2
      apply goodExt_bind (goodExt_getH _ _)
      intro r3
      apply goodExt_ite
      · apply goodExt_bind (goodExt_pure _)
        intro y
        cases y with
        | none => exact goodExt_throw _
        | some u2 => exact goodExt_bind (goodExt_getH _ _) (fun _ => goodExt_getCookies)
      · apply goodExt_bind (goodExt_getH _ _)
        intro r4
        apply goodExt_ite
        · apply goodExt_bind (goodExt_pure _)
          intro y
          cases y with
          | none => exact goodExt_throw _
          | some u2 => exact goodExt_bind (goodExt_getH _ _) (fun _ => goodExt_getCookies)
        · apply goodExt_bind (goodExt_pure _)
          intro y
          cases y with
          | none => exact goodExt_throw _
          | some u2 => exact goodExt_bind (goodExt_getH _ _) (fun _ => goodExt_getCookies)

theorem goodExt_simple_auth (u p url : String) (fa : List (String × String)) :
    GoodExt (simple_auth u p url fa) := by
  unfold simple_auth
  apply goodExt_ite
  · exact goodExt_throw _
  · apply goodExt_bind (goodExt_getH _ _)
    intro r0
    apply goodExt_bind (goodExt_ofExcept _)
    intro pl0
    apply goodExt_bind (goodExt_postH _ _)
    intro r1
    apply goodExt_ite
    · exact goodExt_throw _
    · exact goodExt_getCookies

theorem goodExt_hub (u p pronote_url : String) : GoodExt (hubeduconnect u p pronote_url) := by
  unfold hubeduconnect
  apply goodExt_bind (goodExt_getH _ _)
  intro r0
  apply goodExt_bind (goodExt_sso _ _ _ _)
  intro resp
  cases resp with
  | none => exact goodExt_throw _
  | some rr =>
    apply goodExt_ite
    · exact goodExt_throw _
    · apply goodExt_ite
      · exact goodExt_throw _
      · apply goodExt_ite
        · exact goodExt_throw _
        · exact goodExt_bind (goodExt_educonnect _ _ _ _) (fun _ => goodExt_getCookies)

/-- C7 (amended): every strategy that drives a plain
`requests.Session` — `_sso_redirect`, `_educonnect`, `_cas_edu`,
`_cas`, `_open_ent_ng`, `_open_ent_ng_edu`, `_wayf`, `_oze_ent`,
`_simple_auth`, `_hubeduconnect` — attaches the fixed `HEADERS`
(`User-Agent`) constant to every request it issues; only
`generic_auth`'s `AuthSession` sends requests without it. -/
theorem C7_plain_sessions_send_fixed_ua
    (u p url domain providerId entityID returnX pronote_url : String)
    (rf ex : Bool) (fa : List (String × String))
    (given : Response) (k ru : String) (pl : Payload) :
    GoodExt (sso_redirect given k ru pl)
    ∧ GoodExt (educonnect u p url ex)
    ∧ GoodExt (cas_edu u p url rf)
    ∧ GoodExt (cas u p url)
    ∧ GoodExt (open_ent_ng u p url)
    ∧ GoodExt (open_ent_ng_edu u p domain providerId)
    ∧ GoodExt (wayf u p domain entityID returnX rf)
    ∧ GoodExt (oze_ent u p url)
    ∧ GoodExt (simple_auth u p url fa)
    ∧ GoodExt (hubeduconnect u p pronote_url) :=
  ⟨goodExt_sso _ _ _ _, goodExt_educonnect _ _ _ _, goodExt_cas_edu _ _ _ _,
   goodExt_cas _ _ _, goodExt_open_ent_ng _ _ _, goodExt_open_ent_ng_edu _ _ _ _,
   goodExt_wayf _ _ _ _ _ _, goodExt_oze_ent _ _ _, goodExt_simple_auth _ _ _ _,
   goodExt_hub _ _ _⟩

/-- C7 witness: every request of a concrete `_cas` run carries the
fixed `HEADERS`. -/
theorem C7_plain_sessions_send_fixed_ua_witness :
    allGood ((cas "alice" "secret" "http://cas.example/login")
      (St.init [respCasTgc, respCasSess])).2.trace = true := by
  obtain ⟨t, ht, hg⟩ := (C7_plain_sessions_send_fixed_ua "alice" "secret"
    "http://cas.example/login" "" "" "" "" "" false false [] default "" "" []).2.2.2.1
    (St.init [respCasTgc, respCasSess])
  rw [ht]
  simpa using hg

/-! ### Helpers for C8 -/

/-- A computation that only appends to the trace keeps the first
request of a singleton trace at the head. -/
theorem head_of_goodExt {α : Type} (m : M α) (hm : GoodExt m) (s : St) (req : Request)
    (h : s.trace = [req]) : ((m s).2).trace.head? = some req := by
  obtain ⟨t, ht, -⟩ := hm s
  rw [ht, h]
  rfl

/-- The first request of a flow that opens with a `getH` stays at the
head of the trace when the continuation only appends requests. -/
theorem head_first_request (url : String) (params : List (String × String))
    {β : Type} (f : Response → M β) (hf : ∀ a, GoodExt (f a)) (w : List Response)
    (hurl : url ≠ "") :
    (((getH url params >>= f) (St.init w)).2).trace.head?
      = some ⟨"GET", url, HEADERS, [], params⟩ := by
  have h0 := getH_ok url params (St.init w) hurl
  rw [M_bind_eq, h0]
  show ((f (nextResp (St.init w))
      (pushReq (St.init w) ⟨"GET", url, HEADERS, [], params⟩)).2).trace.head? = _
  exact head_of_goodExt _ (hf _) _ _ rfl

/-- `_educonnect` only ever returns a response whose status is not
4xx/5xx (`if not response` filters falsy responses out). -/
theorem educonnect_some_status (u p url : String) (ex : Bool) (s s' : St) (rr : Response)
    (h : educonnect u p url ex s = (.ok (some rr), s')) : statusBad rr.status = false := by
  unfold educonnect at h
  by_cases hu : url = ""
  · rw [if_pos hu, mThrow_eq] at h
    simp at h
  · rw [if_neg hu, M_bind_eq] at h
    split at h
    · rw [M_bind_eq] at h
      split at h
      · split at h
        · rename_i hcond
          rw [M_pure_eq] at h
          simp only [Prod.mk.injEq, Except.ok.injEq] at h
          obtain ⟨hresp, -⟩ := h
          rw [hresp] at hcond
          rw [optTruthy] at hcond
          simpa using hcond
        · split at h
          · rw [mThrow_eq] at h
            simp at h
          · rw [M_pure_eq] at h
            simp at h
      · simp at h
    · simp at h

/-- C8: `_open_ent_ng_edu` defaults `providerId` to
`<domain>/auth/saml/metadata/idp.xml` (visible in the first request's
query parameters); when the non-raising Educonnect sub-flow yields no
response it falls back to `_open_ent_ng` at `<domain>/auth/login`;
when the sub-flow yields a response whose URL contains `login` the
fallback uses that returned URL instead; and a fallback POST whose
resulting URL contains `login` makes `_open_ent_ng` raise
`ENTLoginError`. -/
theorem C8_open_ent_ng_edu_fallback (u p domain : String) (w : List Response)
    (hdom : domain ≠ "") :
    ((runM (open_ent_ng_edu u p domain "") w).2.trace.head?
        = some ⟨"GET", ent_login_page, HEADERS, [],
            [("providerId", domain ++ "/auth/saml/metadata/idp.xml")]⟩)
    ∧ (∀ s2 : St,
        educonnect u p (nextResp (St.init w)).url false
            (pushReq (St.init w) ⟨"GET", ent_login_page, HEADERS, [],
              [("providerId", domain ++ "/auth/saml/metadata/idp.xml")]⟩)
          = (.ok none, s2) →
        open_ent_ng_edu u p domain "" (St.init w)
          = open_ent_ng u p (domain ++ "/auth/login") s2)
    ∧ (∀ (rr : Response) (s2 : St),
        educonnect u p (nextResp (St.init w)).url false
            (pushReq (St.init w) ⟨"GET", ent_login_page, HEADERS, [],
              [("providerId", domain ++ "/auth/saml/metadata/idp.xml")]⟩)
          = (.ok (some rr), s2) →
        strContains rr.url "login" = true →
        open_ent_ng_edu u p domain "" (St.init w) = open_ent_ng u p rr.url s2)
    ∧ (∀ (url2 : String) (s : St), url2 ≠ "" →
        strContains (nextResp s).url "login" = true →
        open_ent_ng u p url2 s
          = (.error (.entLoginError ("Fail to connect with Open NG " ++ url2
              ++ " : probably wrong login information")),
             pushReq s ⟨"POST", url2, HEADERS,
               [("email", some u), ("password", some p)], []⟩)) := by
  have hne : ent_login_page ≠ "" := by decide
  have h0 : getH ent_login_page [("providerId", domain ++ "/auth/saml/metadata/idp.xml")]
      (St.init w)
      = (.ok (nextResp (St.init w)), pushReq (St.init w) ⟨"GET", ent_login_page, HEADERS, [],
          [("providerId", domain ++ "/auth/saml/metadata/idp.xml")]⟩) :=
    getH_ok _ _ _ hne
  refine ⟨?_, ?_, ?_, ?_⟩
  · simp only [runM, open_ent_ng_edu]
    rw [if_neg hdom]
    simp only [if_true]
    apply head_first_request
    · intro r0
      apply goodExt_bind (goodExt_educonnect _ _ _ _)
      intro resp
      cases resp with
      | none => exact goodExt_open_ent_ng _ _ _
      | some rr =>
        apply goodExt_ite
        · exact goodExt_open_ent_ng _ _ _
        · apply goodExt_ite
          · exact goodExt_open_ent_ng _ _ _
          · exact goodExt_getCookies
    · exact hne
  · intro s2 heduc
    simp only [open_ent_ng_edu]
    rw [if_neg hdom]
    simp only [if_true]
    simp only [M_bind_eq, h0, heduc]
  · intro rr s2 heduc hlog
    have hstat := educonnect_some_status _ _ _ _ _ _ _ heduc
    simp only [open_ent_ng_edu]
    rw [if_neg hdom]
    simp only [if_true]
    simp only [M_bind_eq, h0, heduc, hstat, Bool.false_eq_true, if_false, hlog,
      eq_self_iff_true, if_true]
  · intro url2 s hne2 hlog
    have hp := postH_ok url2 [("email", some u), ("password", some p)] s hne2
    simp only [open_ent_ng]
    rw [if_neg hne2]
    simp only [M_bind_eq, hp, hlog, eq_self_iff_true, if_true, mThrow_eq]

/-- C8 witness: with a failing Educonnect leg (500 response, no
artifact) the flow falls back to `_open_ent_ng` at
`<domain>/auth/login`, and a fallback POST landing on a `login` URL is
rejected. -/
theorem C8_open_ent_ng_edu_fallback_witness :
    (open_ent_ng_edu "u" "p" "http://ent.example" "" (St.init [respBlankA, resp500])
      = open_ent_ng "u" "p" ("http://ent.example" ++ "/auth/login")
          (educonnect "u" "p" (nextResp (St.init [respBlankA, resp500])).url false
            (pushReq (St.init [respBlankA, resp500]) ⟨"GET", ent_login_page, HEADERS, [],
              [("providerId",
                "http://ent.example" ++ "/auth/saml/metadata/idp.xml")]⟩)).2)
    ∧ (open_ent_ng "u" "p" "http://x/auth" (St.init [respLogin])
        = (.error (.entLoginError ("Fail to connect with Open NG " ++ "http://x/auth"
            ++ " : probably wrong login information")),
           pushReq (St.init [respLogin]) ⟨"POST", "http://x/auth", HEADERS,
             [("email", some "u"), ("password", some "p")], []⟩)) :=
  ⟨(C8_open_ent_ng_edu_fallback "u" "p" "http://ent.example" [respBlankA, resp500]
      (by decide)).2.1 _ rfl,
   (C8_open_ent_ng_edu_fallback "u" "p" "http://ent.example" [respBlankA, resp500]
      (by decide)).2.2.2 "http://x/auth" (St.init [respLogin]) (by decide) rfl⟩

/-- C10: in `_oze_ent`, when the apps listing contains no entry with
code `pronote` and the Pronote config lacks a truthy `autorisationId`
or a truthy `projet`, `proxysso_url` stays `None`, so the final
`session.get(None)` raises the untyped `MissingSchema` error: the flow
fails without returning cookies and without an `ENTLoginError`. -/
theorem C10_oze_untyped_failure (u p url : String) (r0 r1 r2 r3 r4 : Response)
    (pl0 : Payload)
    (hurl : url ≠ "")
    (hcoll : findFormInputs kcFormP r0 = .ok pl0)
    (hr0url : r0.url ≠ "")
    (hnoauth : strContains r1.text "auth_form" = false)
    (happs : r3.jsonApps.all (fun a => !(a.1 == "pronote")) = true)
    (hcfg : r4.jsonAutoId = "" ∨ r4.jsonProjet = "") :
    (runM (oze_ent u p url) [r0, r1, r2, r3, r4]).1 = .error .missingSchema
    ∧ ∀ msg, (runM (oze_ent u p url) [r0, r1, r2, r3, r4]).1
        ≠ .error (.entLoginError msg) := by
  have h0 : getH url [] (St.init [r0, r1, r2, r3, r4])
      = (.ok r0, pushReq (St.init [r0, r1, r2, r3, r4]) ⟨"GET", url, HEADERS, [], []⟩) := by
    rw [getH_ok _ _ _ hurl]
    rfl
  have h1 : ∀ b : Payload, postH r0.url b
        (pushReq (St.init [r0, r1, r2, r3, r4]) ⟨"GET", url, HEADERS, [], []⟩)
      = (.ok r1, pushReq (pushReq (St.init [r0, r1, r2, r3, r4]) ⟨"GET", url, HEADERS, [], []⟩)
          ⟨"POST", r0.url, HEADERS, b, []⟩) := by
    intro b
    rw [postH_ok _ _ _ hr0url]
    rfl
  have hv1 : urljoin (replaceNetloc url ("api-" ++ netlocOf url)) "/v1/users/me" ≠ "" :=
    urljoin_vpath_ne _ _ rfl rfl (by decide)
  have hv2 : urljoin (replaceNetloc url ("api-" ++ netlocOf url)) "/v1/ozapps" ≠ "" :=
    urljoin_vpath_ne _ _ rfl rfl (by decide)
  have hv3 : urljoin (replaceNetloc url ("api-" ++ netlocOf url)) "/v1/config/Pronote" ≠ "" :=
    urljoin_vpath_ne _ _ rfl rfl (by decide)
  have h2 : ∀ b : Payload, getH (urljoin (replaceNetloc url ("api-" ++ netlocOf url))
        "/v1/users/me") []
        (pushReq (pushReq (St.init [r0, r1, r2, r3, r4]) ⟨"GET", url, HEADERS, [], []⟩)
          ⟨"POST", r0.url, HEADERS, b, []⟩)
      = (.ok r2,
         pushReq (pushReq (pushReq (St.init [r0, r1, r2, r3, r4]) ⟨"GET", url, HEADERS, [], []⟩)
            ⟨"POST", r0.url, HEADERS, b, []⟩)
          ⟨"GET", urljoin (replaceNetloc url ("api-" ++ netlocOf url)) "/v1/users/me",
            HEADERS, [], []⟩) := by
    intro b
    rw [getH_ok _ _ _ hv1]
    rfl
  have h3 : ∀ b : Payload, getH (urljoin (replaceNetloc url ("api-" ++ netlocOf url))
        "/v1/ozapps") [("ctx_profil", r2.jsonProfil.1), ("ctx_etab", r2.jsonProfil.2)]
        (pushReq (pushReq (pushReq (St.init [r0, r1, r2, r3, r4]) ⟨"GET", url, HEADERS, [], []⟩)
            ⟨"POST", r0.url, HEADERS, b, []⟩)
          ⟨"GET", urljoin (replaceNetloc url ("api-" ++ netlocOf url)) "/v1/users/me",
            HEADERS, [], []⟩)
      = (.ok r3,
         pushReq (pushReq (pushReq (pushReq (St.init [r0, r1, r2, r3, r4])
              ⟨"GET", url, HEADERS, [], []⟩)
            ⟨"POST", r0.url, HEADERS, b, []⟩)
          ⟨"GET", urljoin (replaceNetloc url ("api-" ++ netlocOf url)) "/v1/users/me",
            HEADERS, [], []⟩)
          ⟨"GET", urljoin (replaceNetloc url ("api-" ++ netlocOf url)) "/v1/ozapps",
            HEADERS, [],
            [("ctx_profil", r2.jsonProfil.1), ("ctx_etab", r2.jsonProfil.2)]⟩) := by
    intro b
    rw [getH_ok _ _ _ hv2]
    rfl
  have h4 : ∀ b : Payload, getH (urljoin (replaceNetloc url ("api-" ++ netlocOf url))
        "/v1/config/Pronote") [("ctx_profil", r2.jsonProfil.1), ("ctx_etab", r2.jsonProfil.2)]
        (pushReq (pushReq (pushReq (pushReq (St.init [r0, r1, r2, r3, r4])
              ⟨"GET", url, HEADERS, [], []⟩)
            ⟨"POST", r0.url, HEADERS, b, []⟩)
          ⟨"GET", urljoin (replaceNetloc url ("api-" ++ netlocOf url)) "/v1/users/me",
            HEADERS, [], []⟩)
          ⟨"GET", urljoin (replaceNetloc url ("api-" ++ netlocOf url)) "/v1/ozapps",
            HEADERS, [],
            [("ctx_profil", r2.jsonProfil.1), ("ctx_etab", r2.jsonProfil.2)]⟩)
      = (.ok r4,
         pushReq (pushReq (pushReq (pushReq (pushReq (St.init [r0, r1, r2, r3, r4])
              ⟨"GET", url, HEADERS, [], []⟩)
            ⟨"POST", r0.url, HEADERS, b, []⟩)
          ⟨"GET", urljoin (replaceNetloc url ("api-" ++ netlocOf url)) "/v1/users/me",
            HEADERS, [], []⟩)
          ⟨"GET", urljoin (replaceNetloc url ("api-" ++ netlocOf url)) "/v1/ozapps",
            HEADERS, [],
            [("ctx_profil", r2.jsonProfil.1), ("ctx_etab", r2.jsonProfil.2)]⟩)
          ⟨"GET", urljoin (replaceNetloc url ("api-" ++ netlocOf url)) "/v1/config/Pronote",
            HEADERS, [],
            [("ctx_profil", r2.jsonProfil.1), ("ctx_etab", r2.jsonProfil.2)]⟩) := by
    intro b
    rw [getH_ok _ _ _ hv3]
    rfl
  have happ' : r3.jsonApps.foldl
      (fun acc app => if app.1 == "pronote" then some (urljoin url app.2) else acc)
      none = none := foldl_no_pronote url r3.jsonApps happs none
  have hcfg' : (r4.jsonAutoId ≠ "" && r4.jsonProjet ≠ "") = false := by
    rcases hcfg with h | h <;> simp [h]
  have hfin : (runM (oze_ent u p url) [r0, r1, r2, r3, r4]).1 = .error .missingSchema := by
    simp only [runM, oze_ent]
    rw [if_neg hurl]
    simp only [M_bind_eq, h0, mOfExcept, hcoll, M_pure_eq, h1, hnoauth, Bool.false_eq_true,
      if_false, h2, h3, h4, happ', truthyS_none, hcfg', mThrow_eq]
  refine ⟨hfin, ?_⟩
  intro msg
  rw [hfin]
  simp

/-- C10 witness: a full Oze run with no `pronote` app and a falsy
`autorisationId`. -/
theorem C10_oze_untyped_failure_witness :
    (runM (oze_ent "jean" "pw" "http://oze.example/")
      [respOze0, respOze1, respOzeInfo, respOzeApps, respOzeCfg]).1
      = .error .missingSchema :=
  (C10_oze_untyped_failure "jean" "pw" "http://oze.example/"
    respOze0 respOze1 respOzeInfo respOzeApps respOzeCfg [("session_code", some "sc")]
    (by decide) rfl (by decide) rfl rfl (Or.inl rfl)).1

end Pronotepy
